import Mathlib

/-!
Verification of the top-stories pipeline (Hacker-News scraper → Kafka →
filtering story API) against its specification.

The embedding models:
* the consumer-side filter engine (`NewStoryFilter`, `Matches`) and the
  HTTP query layer (`handleGetStories`) of `story-api/main.go`;
* the producer-side dedup-and-publish step (`addAndPublishStory`) of the
  scraper;
* the Kafka drain loop (`consumeMessages`) of `story-api/main.go`.

Go strings are modelled as lists of characters, Go `int`/`int64` as `Int`
(the comparisons in the modelled code never overflow, so no wrap-around
modulus is needed; the one place a machine-width constant is observable —
the `int(^uint32(0) >> 1)` default for `maxScore` — is kept as the literal
`2147483647`).
-/

/-- Go `string`, modelled as its sequence of characters. -/
abbrev GoString := List Char

/-- Models Go `strings.ToLower` (character-wise case mapping). -/
def toLowerStr (s : GoString) : GoString := s.map Char.toLower

/-- Models Go `strings.Contains s sub`: `sub` occurs in `s` as a contiguous
substring. Like the Go function, it is true for an empty `sub`. -/
def containsStr : GoString → GoString → Bool
  | [], sub => sub.isEmpty
  | c :: t, sub => sub.isPrefixOf (c :: t) || containsStr t sub

/-- The `Story` record. `story-api/main.go` and the scraper define it
identically: JSON fields `id, title, url, by, score, time, type`.
Go reserves the name `Type`, Lean reserves it too, hence `Type'`. -/
structure Story where
  ID : Int
  Title : GoString
  URL : GoString
  By : GoString
  Score : Int
  Time : Int
  Type' : GoString
deriving DecidableEq, Repr

/-- The `filter:` section of the consumer's YAML config
(`FilterConfig` in `story-api/main.go`). -/
structure FilterConfig where
  StoryTypes : List GoString
  Keywords : List GoString
  MinimumScore : Int
deriving DecidableEq, Repr

/-- `StoryFilter` from `story-api/main.go`. The Go field `storyTypes` is a
`map[string]bool` holding exactly the keys of `cfg.StoryTypes` (each with
value `true`); it is modelled by that key list, with map lookup as list
membership and map length positivity as list non-emptiness. -/
structure StoryFilter where
  storyTypes : List GoString
  keywords : List GoString
  minimumScore : Int
  enabled : Bool
deriving DecidableEq, Repr

/-- `NewStoryFilter` from `story-api/main.go`: copies the constraints and
derives `enabled = len(StoryTypes) > 0 || len(Keywords) > 0 || MinimumScore > 0`. -/
def NewStoryFilter (cfg : FilterConfig) : StoryFilter :=
  { storyTypes := cfg.StoryTypes
    keywords := cfg.Keywords
    minimumScore := cfg.MinimumScore
    enabled := decide (0 < cfg.StoryTypes.length) ||
               decide (0 < cfg.Keywords.length) ||
               decide (0 < cfg.MinimumScore) }

/-- `(*StoryFilter).Matches` from `story-api/main.go`, with the keyword
loop (`matched := false; for ... { if strings.Contains ... }`) rendered as
`List.any` over the keywords. -/
def Matches (f : StoryFilter) (story : Story) : Bool :=
  if !f.enabled then
    true
  else if decide (0 < f.storyTypes.length) && !(f.storyTypes.contains story.Type') then
    false
  else if story.Score < f.minimumScore then
    false
  else if 0 < f.keywords.length then
    f.keywords.any fun keyword =>
      containsStr (toLowerStr story.Title) (toLowerStr keyword)
  else
    true

/-- Spec-side type constraint: the allowed-type set is empty, or it
contains the story's type. -/
def typeConstraint (f : StoryFilter) (story : Story) : Prop :=
  f.storyTypes = [] ∨ story.Type' ∈ f.storyTypes

/-- Spec-side score constraint: the story's score is at least the
configured minimum. -/
def scoreConstraint (f : StoryFilter) (story : Story) : Prop :=
  f.minimumScore ≤ story.Score

/-- Spec-side keyword constraint: the keyword set is empty, or the
lower-cased title contains some lower-cased keyword as a substring. -/
def keywordConstraint (f : StoryFilter) (story : Story) : Prop :=
  f.keywords = [] ∨ ∃ k ∈ f.keywords, toLowerStr k <:+: toLowerStr story.Title

theorem containsStr_iff (s sub : GoString) : containsStr s sub = true ↔ sub <:+: s := by
  induction s with
  | nil => simp [containsStr, List.isEmpty_iff, List.infix_nil]
  | cons c t ih =>
      simp [containsStr, ih, List.infix_cons_iff, List.isPrefixOf_iff_prefix]

theorem contains_iff (l : List GoString) (a : GoString) :
    l.contains a = true ↔ a ∈ l := List.elem_iff

theorem enabled_iff (cfg : FilterConfig) :
    (NewStoryFilter cfg).enabled = true ↔
      cfg.StoryTypes ≠ [] ∨ cfg.Keywords ≠ [] ∨ 0 < cfg.MinimumScore := by
  simp [NewStoryFilter, List.length_pos]
  tauto

theorem Matches_eq_true_iff (f : StoryFilter) (story : Story) (h : f.enabled = true) :
    Matches f story = true ↔
      typeConstraint f story ∧ scoreConstraint f story ∧
        (f.keywords = [] ∨
          ∃ k ∈ f.keywords,
            containsStr (toLowerStr story.Title) (toLowerStr k) = true) := by
  unfold Matches typeConstraint scoreConstraint
  rw [h]
  by_cases h1 : f.storyTypes = []
  · by_cases h2 : story.Score < f.minimumScore
    · simp [h1, h2, not_lt.mpr, not_le.mpr h2]
    · by_cases h3 : f.keywords = []
      · simp [h1, h2, h3, not_lt.mp h2]
      · have h4 : 0 < f.keywords.length := List.length_pos.mpr h3
        simp [h1, h2, h3, h4, not_lt.mp h2, List.any_eq_true]
  · have h1' : 0 < f.storyTypes.length := List.length_pos.mpr h1
    by_cases hm : story.Type' ∈ f.storyTypes
    · by_cases h2 : story.Score < f.minimumScore
      · simp [h1, h1', hm, h2, contains_iff, not_le.mpr h2]
      · by_cases h3 : f.keywords = []
        · simp [h1, h1', hm, h2, h3, contains_iff, not_lt.mp h2]
        · have h4 : 0 < f.keywords.length := List.length_pos.mpr h3
          simp [h1, h1', hm, h2, h3, h4, contains_iff, not_lt.mp h2,
            List.any_eq_true]
    · simp [h1, h1', hm, contains_iff]

/-- Claim C1: if the filter's `enabled` flag is false, `Matches` returns
true unconditionally; if `enabled` is true, `Matches` returns true iff the
type constraint, the score constraint and the keyword constraint all hold. -/
theorem filter_and_law (f : StoryFilter) (story : Story) :
    Matches f story = true ↔
      (f.enabled = false ∨
        (typeConstraint f story ∧ scoreConstraint f story ∧
          keywordConstraint f story)) := by
  cases h : f.enabled
  · simp [Matches, h]
  · rw [Matches_eq_true_iff f story h]
    unfold keywordConstraint
    simp only [containsStr_iff, h]
    simp

/-- Claim C5 counterexample: with `minimum_score = -1` (non-zero) and both
lists empty, `NewStoryFilter` derives `enabled = false`, so `enabled` is
not "true iff some constraint is non-empty/non-zero". -/
theorem enabled_nonzero_counterexample :
    ¬ ((NewStoryFilter ⟨[], [], -1⟩).enabled = true ↔
        (([] : List GoString) ≠ [] ∨ ([] : List GoString) ≠ [] ∨
          (-1 : Int) ≠ 0)) := by
  decide

/-- Claim C5 (amended): `NewStoryFilter` sets `enabled` to true iff the
type list is non-empty, or the keyword list is non-empty, or
`minimum_score` is strictly positive (a negative score does not enable). -/
theorem enabled_iff_positive (cfg : FilterConfig) :
    (NewStoryFilter cfg).enabled = true ↔
      cfg.StoryTypes ≠ [] ∨ cfg.Keywords ≠ [] ∨ 0 < cfg.MinimumScore :=
  enabled_iff cfg

/-- Claim C6 counterexample: with the keyword set `[""]` (non-empty, but
holding the empty keyword) and an empty title, `Matches` returns true,
because Go `strings.Contains(s, "")` is always true — so an empty title
can satisfy a non-empty keyword set. -/
theorem empty_title_counterexample :
    Matches (NewStoryFilter ⟨[], [[]], 0⟩) ⟨1, [], [], [], 0, 0, []⟩ = true := by
  decide

/-- Claim C6 (amended): for a filter built from a config with a non-empty
keyword set all of whose keywords are non-empty, a story with an empty
title never matches. -/
theorem empty_title_never_matches (cfg : FilterConfig) (story : Story)
    (hk : cfg.Keywords ≠ []) (hne : ∀ k ∈ cfg.Keywords, k ≠ [])
    (ht : story.Title = []) :
    Matches (NewStoryFilter cfg) story = false := by
  have hen : (NewStoryFilter cfg).enabled = true :=
    (enabled_iff cfg).mpr (Or.inr (Or.inl hk))
  rw [← Bool.not_eq_true]
  intro hm
  obtain ⟨-, -, hkw⟩ := (Matches_eq_true_iff _ _ hen).mp hm
  rcases hkw with h | ⟨k, hkmem, hc⟩
  · exact hk (by simpa [NewStoryFilter] using h)
  · rw [ht] at hc
    have hmapnil : toLowerStr k = [] := by
      simpa [toLowerStr, containsStr, List.isEmpty_iff] using hc
    have : k = [] := by simpa [toLowerStr] using hmapnil
    exact hne k (by simpa [NewStoryFilter] using hkmem) this

/-- Claim C6 (amended) witness at a concrete input. -/
theorem empty_title_never_matches_witness :
    Matches (NewStoryFilter ⟨[], [['r', 'u', 's', 't']], 0⟩)
        ⟨1, [], [], [], 0, 0, []⟩ = false :=
  empty_title_never_matches ⟨[], [['r', 'u', 's', 't']], 0⟩
    ⟨1, [], [], [], 0, 0, []⟩ (by decide) (by decide) rfl

/-- Claim C3: with a non-empty keyword set and the type and score
constraints satisfied, `Matches` is true iff some lower-cased keyword is a
substring of the lower-cased title; and replacing the title, or the
keyword list, by a case-variant (equal after lower-casing) never changes
the result of `Matches`. -/
theorem keyword_or_law :
    (∀ (cfg : FilterConfig) (story : Story),
        cfg.Keywords ≠ [] →
        typeConstraint (NewStoryFilter cfg) story →
        scoreConstraint (NewStoryFilter cfg) story →
        (Matches (NewStoryFilter cfg) story = true ↔
          ∃ k ∈ cfg.Keywords, toLowerStr k <:+: toLowerStr story.Title)) ∧
    (∀ (f : StoryFilter) (story : Story) (t2 : GoString),
        toLowerStr t2 = toLowerStr story.Title →
        Matches f { story with Title := t2 } = Matches f story) ∧
    (∀ (cfg : FilterConfig) (story : Story) (ks2 : List GoString),
        ks2.map toLowerStr = cfg.Keywords.map toLowerStr →
        Matches (NewStoryFilter { cfg with Keywords := ks2 }) story =
          Matches (NewStoryFilter cfg) story) := by
  refine ⟨?_, ?_, ?_⟩
  · intro cfg story hk htype hscore
    have hen : (NewStoryFilter cfg).enabled = true :=
      (enabled_iff cfg).mpr (Or.inr (Or.inl hk))
    rw [Matches_eq_true_iff _ _ hen]
    have hk' : (NewStoryFilter cfg).keywords = cfg.Keywords := rfl
    simp only [hk', containsStr_iff]
    constructor
    · rintro ⟨-, -, h | h⟩
      · exact absurd h hk
      · exact h
    · intro h
      exact ⟨htype, hscore, Or.inr h⟩
  · intro f story t2 ht2
    obtain ⟨i, ti, u, b, sc, tm, ty⟩ := story
    simp only [Matches]
    simp only at ht2 ⊢
    rw [ht2]
  · intro cfg story ks2 hks
    have hlen : ks2.length = cfg.Keywords.length := by
      simpa using congrArg List.length hks
    have hany : (ks2.any fun keyword =>
          containsStr (toLowerStr story.Title) (toLowerStr keyword)) =
        (cfg.Keywords.any fun keyword =>
          containsStr (toLowerStr story.Title) (toLowerStr keyword)) := by
      have h2 := List.any_map (l := ks2)
        (p := fun keyword => containsStr (toLowerStr story.Title) keyword)
        (f := toLowerStr)
      have h3 := List.any_map (l := cfg.Keywords)
        (p := fun keyword => containsStr (toLowerStr story.Title) keyword)
        (f := toLowerStr)
      calc (ks2.any fun keyword =>
              containsStr (toLowerStr story.Title) (toLowerStr keyword))
          = (ks2.map toLowerStr).any
              (fun keyword => containsStr (toLowerStr story.Title) keyword) :=
            h2.symm
        _ = (cfg.Keywords.map toLowerStr).any
              (fun keyword => containsStr (toLowerStr story.Title) keyword) := by
            rw [hks]
        _ = _ := h3
    simp only [Matches, NewStoryFilter]
    simp only [hlen, hany]

/-- Claim C3 witness: each conjunct applied at a concrete input
(keyword "rust", title "Rust", upper-cased variants). -/
theorem keyword_or_law_witness :
    (Matches (NewStoryFilter ⟨[], [['r', 'u', 's', 't']], 0⟩)
        ⟨1, ['R', 'u', 's', 't'], [], [], 0, 0, []⟩ = true ↔
      ∃ k ∈ [['r', 'u', 's', 't']],
        toLowerStr k <:+: toLowerStr ['R', 'u', 's', 't']) ∧
    (Matches (NewStoryFilter ⟨[], [['r', 'u', 's', 't']], 0⟩)
        { (⟨1, ['R', 'u', 's', 't'], [], [], 0, 0, []⟩ : Story) with
            Title := ['R', 'U', 'S', 'T'] } =
      Matches (NewStoryFilter ⟨[], [['r', 'u', 's', 't']], 0⟩)
        ⟨1, ['R', 'u', 's', 't'], [], [], 0, 0, []⟩) ∧
    (Matches (NewStoryFilter
        { (⟨[], [['r', 'u', 's', 't']], 0⟩ : FilterConfig) with
            Keywords := [['R', 'U', 'S', 'T']] })
        ⟨1, ['R', 'u', 's', 't'], [], [], 0, 0, []⟩ =
      Matches (NewStoryFilter ⟨[], [['r', 'u', 's', 't']], 0⟩)
        ⟨1, ['R', 'u', 's', 't'], [], [], 0, 0, []⟩) :=
  ⟨keyword_or_law.1 ⟨[], [['r', 'u', 's', 't']], 0⟩
      ⟨1, ['R', 'u', 's', 't'], [], [], 0, 0, []⟩ (by decide)
      (Or.inl rfl) (by unfold scoreConstraint; decide),
   keyword_or_law.2.1 (NewStoryFilter ⟨[], [['r', 'u', 's', 't']], 0⟩)
      ⟨1, ['R', 'u', 's', 't'], [], [], 0, 0, []⟩ ['R', 'U', 'S', 'T']
      (by decide),
   keyword_or_law.2.2 ⟨[], [['r', 'u', 's', 't']], 0⟩
      ⟨1, ['R', 'u', 's', 't'], [], [], 0, 0, []⟩ [['R', 'U', 'S', 'T']]
      (by decide)⟩

/-- The scraper state relevant to deduplication (`Scraper` in the scraper
source): `seenStories` models the Go `map[int]bool` Seen-Set as its key
list, and `published` is an observation log holding one `(id, ok)` entry
per invocation of `publishStoryToKafka` — `ok` is the publish outcome
(success, or failure after the bounded retries). The Go code ignores the
returned error apart from logging, so the outcome never feeds back into
the state. -/
structure Scraper where
  seenStories : List Int
  published : List (Int × Bool)
deriving DecidableEq, Repr

/-- `NewScraper`'s dedup-relevant initial state: `make(map[int]bool)` and
no publish yet. -/
def newScraper : Scraper := { seenStories := [], published := [] }

/-- `(*Scraper).addAndPublishStory`: under the lock, if the id is already
seen do nothing; otherwise mark it seen and call `publishStoryToKafka`,
whose outcome (`pubOk story.ID`) is only logged. -/
def addAndPublishStory (pubOk : Int → Bool) (s : Scraper) (story : Story) : Scraper :=
  if s.seenStories.contains story.ID then
    s
  else
    { seenStories := story.ID :: s.seenStories
      published := s.published ++ [(story.ID, pubOk story.ID)] }

theorem addAndPublishStory_count_invariant (pubOk : Int → Bool) (i : Int)
    (stories : List Story) :
    ∀ s : Scraper,
      (s.published.countP fun e => e.1 == i) ≤
          (if s.seenStories.contains i then 1 else 0) →
      ((stories.foldl (addAndPublishStory pubOk) s).published.countP
          fun e => e.1 == i) ≤
        (if (stories.foldl (addAndPublishStory pubOk) s).seenStories.contains i
          then 1 else 0) := by
  induction stories with
  | nil => intro s h; exact h
  | cons st rest ih =>
      intro s h
      rw [List.foldl_cons]
      apply ih
      unfold addAndPublishStory
      by_cases hseen : s.seenStories.contains st.ID = true
      · rw [if_pos hseen]
        exact h
      · rw [if_neg hseen]
        by_cases hi : st.ID = i
        · subst hi
          have hcons : ((st.ID :: s.seenStories).contains st.ID) = true := by
            rw [List.contains_cons]
            simp
        
          have h0 : (s.published.countP fun e => e.1 == st.ID) = 0 := by
            rw [if_neg (by simpa using hseen)] at h
            omega
          simp only [hcons, if_true, List.countP_append, h0]
          simp [List.countP_cons]
        · have hbeq : (i == st.ID) = false :=
            beq_eq_false_iff_ne.mpr fun hh => hi hh.symm
          have hic : ((st.ID :: s.seenStories).contains i) =
              s.seenStories.contains i := by
            rw [List.contains_cons, hbeq, Bool.false_or]
          have hz : (List.countP (fun e => e.1 == i) [(st.ID, pubOk st.ID)]) = 0 := by
            simp [List.countP_cons, beq_eq_false_iff_ne.mpr hi]
          rw [List.countP_append, hz, hic, Nat.add_zero]
          exact h

/-- Claim C2: starting from a fresh scraper, any sequence of
`addAndPublishStory` calls performs at most one publish per item id —
whatever each publish's outcome (`pubOk`) is, so a failed publish is never
retried on a later tick — and a call for an already-seen id leaves the
state unchanged (silently skipped). -/
theorem dedup_at_most_once (pubOk : Int → Bool) (stories : List Story)
    (i : Int) (s : Scraper) (story : Story) :
    ((stories.foldl (addAndPublishStory pubOk) newScraper).published.countP
        fun e => e.1 == i) ≤ 1 ∧
    (s.seenStories.contains story.ID = true →
      addAndPublishStory pubOk s story = s) := by
  constructor
  · have h := addAndPublishStory_count_invariant pubOk i stories newScraper
      (by simp [newScraper])
    exact h.trans (by split <;> norm_num)
  · intro hs
    unfold addAndPublishStory
    rw [if_pos hs]

/-- Claim C2 witness: the same story (id 7) processed twice with every
publish failing yields at most one publish attempt, and a call on a state
that has already seen id 7 is a no-op. -/
theorem dedup_at_most_once_witness :
    ((([(⟨7, [], [], [], 1, 1, []⟩ : Story), ⟨7, [], [], [], 1, 1, []⟩].foldl
        (addAndPublishStory fun _ => false) newScraper).published.countP
          fun e => e.1 == 7) ≤ 1) ∧
    addAndPublishStory (fun _ => false) ⟨[7], []⟩ ⟨7, [], [], [], 1, 1, []⟩ =
      ⟨[7], []⟩ := by
  have h := dedup_at_most_once (fun _ => false)
    [⟨7, [], [], [], 1, 1, []⟩, ⟨7, [], [], [], 1, 1, []⟩] 7
    ⟨[7], []⟩ ⟨7, [], [], [], 1, 1, []⟩
  exact ⟨h.1, h.2 (by decide)⟩

/-- The `StoryStore.stories` map (`map[int]*Story`), modelled as a lookup
function from id to the stored story. -/
def StoreMap := Int → Option Story

/-- The empty store created by `NewServer` (`make(map[int]*Story)`). -/
def emptyStore : StoreMap := fun _ => none

/-- `(*StoryStore).AddStory`: `s.stories[story.ID] = story`. -/
def AddStory (m : StoreMap) (story : Story) : StoreMap :=
  fun id => if id = story.ID then some story else m id

/-- One fetched Kafka message, abstracted to its `json.Unmarshal` outcome:
`none` models a payload that fails to decode, `some story` a decoded
story. -/
abbrev Message := Option Story

/-- The per-message body of `(*Server).consumeMessages`, folded over the
stream of fetched messages: a decode failure is logged and skipped
(`continue`), a story failing the filter is logged and skipped
(`continue`), and an accepted story is stored via `AddStory`. -/
def consumeMessages (f : StoryFilter) (store : StoreMap) :
    List Message → StoreMap
  | [] => store
  | none :: rest => consumeMessages f store rest
  | some story :: rest =>
      if Matches f story then consumeMessages f (AddStory store story) rest
      else consumeMessages f store rest

/-- Claim C8: a malformed message is skipped leaving the store unchanged,
a filtered-out story is discarded leaving the store unchanged, and in both
cases processing continues — a later well-formed, filter-passing message
is still stored, whatever came before it. -/
theorem consume_non_blocking (f : StoryFilter) (store : StoreMap)
    (rest msgs : List Message) (story : Story) :
    (consumeMessages f store (none :: rest) = consumeMessages f store rest) ∧
    (Matches f story = false →
      consumeMessages f store (some story :: rest) =
        consumeMessages f store rest) ∧
    (Matches f story = true →
      consumeMessages f store (msgs ++ [some story]) story.ID = some story) := by
  refine ⟨rfl, ?_, ?_⟩
  · intro hm
    simp [consumeMessages, hm]
  · intro hm
    induction msgs generalizing store with
    | nil => simp [consumeMessages, hm, AddStory]
    | cons m rest2 ih =>
        cases m with
        | none => simpa [consumeMessages] using ih store
        | some st2 =>
            by_cases h2 : Matches f st2
            · simpa [consumeMessages, h2] using ih (AddStory store st2)
            · simpa [consumeMessages, h2] using ih store

/-- Claim C8 witness: after a malformed message and a filtered-out story
(filter requires score 10), a passing story with id 2 is still stored; the
skip steps leave the store unchanged on concrete inputs. -/
theorem consume_non_blocking_witness :
    (consumeMessages (NewStoryFilter ⟨[], [], 10⟩) emptyStore
        (none :: [some ⟨2, [], [], [], 50, 1, []⟩]) =
      consumeMessages (NewStoryFilter ⟨[], [], 10⟩) emptyStore
        [some ⟨2, [], [], [], 50, 1, []⟩]) ∧
    (consumeMessages (NewStoryFilter ⟨[], [], 10⟩) emptyStore
        (some ⟨1, [], [], [], 3, 1, []⟩ :: [some ⟨2, [], [], [], 50, 1, []⟩]) =
      consumeMessages (NewStoryFilter ⟨[], [], 10⟩) emptyStore
        [some ⟨2, [], [], [], 50, 1, []⟩]) ∧
    (consumeMessages (NewStoryFilter ⟨[], [], 10⟩) emptyStore
        ([none, some ⟨1, [], [], [], 3, 1, []⟩] ++ [some ⟨2, [], [], [], 50, 1, []⟩])
        (2 : Int) =
      some ⟨2, [], [], [], 50, 1, []⟩) := by
  have h := consume_non_blocking (NewStoryFilter ⟨[], [], 10⟩) emptyStore
    [some ⟨2, [], [], [], 50, 1, []⟩] [none, some ⟨1, [], [], [], 3, 1, []⟩]
    ⟨1, [], [], [], 3, 1, []⟩
  have h2 := consume_non_blocking (NewStoryFilter ⟨[], [], 10⟩) emptyStore
    [some ⟨2, [], [], [], 50, 1, []⟩] [none, some ⟨1, [], [], [], 3, 1, []⟩]
    ⟨2, [], [], [], 50, 1, []⟩
  refine ⟨h.1, h.2.1 (by decide), ?_⟩
  have := h2.2.2 (by decide)
  simpa using this

/-- Outcome of reading one optional query parameter in `handleGetStories`:
`absent` models `r.URL.Query().Get(...) == ""`, `malformed` a non-empty
value whose parse (`strconv.Atoi`, or `time.Parse(RFC3339)` followed by
`.Unix()`) fails, and `valid v` a successful parse to `v`. -/
inductive Param where
  | absent
  | malformed
  | valid (v : Int)
deriving DecidableEq, Repr

/-- The query parameters of `GET /stories`. The `sort` value is the raw
string (`""` when the parameter is absent, exactly as Go's `Get` returns). -/
structure StoriesQuery where
  minScore : Param
  maxScore : Param
  since : Param
  until' : Param
  sortBy : GoString
deriving DecidableEq, Repr

/-- Resolved `minScore`: initialized to `0`, overwritten only by a
successful `strconv.Atoi`. -/
def resolveMinScore : Param → Int
  | .valid v => v
  | _ => 0

/-- Resolved `maxScore`: initialized to `int(^uint32(0) >> 1)` (that is,
`2147483647`), overwritten only by a successful `strconv.Atoi`. -/
def resolveMaxScore : Param → Int
  | .valid v => v
  | _ => 2147483647

/-- Resolved `sinceTime`/`untilTime`: zero-valued `int64` unless the
RFC3339 parse succeeds, in which case the parsed `.Unix()` value. -/
def resolveTime : Param → Int
  | .valid t => t
  | _ => 0

/-- The `continue` conditions of `handleGetStories`' filter loop, negated
into a keep-predicate: drop when the score is outside `[minScore,
maxScore]`, when `sinceTime > 0` and the story is older, or when
`untilTime > 0` and the story is newer. -/
def passesQueryFilter (minScore maxScore sinceTime untilTime : Int)
    (story : Story) : Bool :=
  !(decide (story.Score < minScore) || decide (story.Score > maxScore)) &&
  !(decide (sinceTime > 0) && decide (story.Time < sinceTime)) &&
  !(decide (untilTime > 0) && decide (story.Time > untilTime))

/-- Insertion into a list sorted by `less` (helper for `sortSlice`). -/
def insertSorted (less : Story → Story → Bool) (x : Story) :
    List Story → List Story
  | [] => [x]
  | y :: ys => if less x y then x :: y :: ys else y :: insertSorted less x ys

/-- Models Go `sort.Slice(filtered, less)` as an insertion sort: on the
pairwise-distinct keys the claims use, every comparison sort ordered by
the strict `less` produces the same list, so the choice of algorithm is
immaterial. -/
def sortSlice (less : Story → Story → Bool) : List Story → List Story
  | [] => []
  | x :: xs => insertSorted less x (sortSlice less xs)

/-- The `switch sortBy` of `handleGetStories`: `oldest` sorts by ascending
time, `popularity` by descending score, and `latest` falls through to the
default descending-time sort, which also handles any unrecognized or
absent value. -/
def sortStories (sortBy : GoString) (l : List Story) : List Story :=
  if sortBy = "oldest".toList then
    sortSlice (fun i j => decide (i.Time < j.Time)) l
  else if sortBy = "popularity".toList then
    sortSlice (fun i j => decide (i.Score > j.Score)) l
  else
    sortSlice (fun i j => decide (i.Time > j.Time)) l

/-- `(*Server).handleGetStories`, applied to the snapshot list that
`GetAllStories` returns (the Go map iteration order is arbitrary, so
claims about it quantify over permutations of the stored items). -/
def handleGetStories (q : StoriesQuery) (stories : List Story) : List Story :=
  sortStories q.sortBy
    (stories.filter
      (passesQueryFilter (resolveMinScore q.minScore)
        (resolveMaxScore q.maxScore) (resolveTime q.since)
        (resolveTime q.until')))

/-- Claim C4 counterexample: with no query parameters at all, a stored
story with score `-1` is dropped — the absent `minScore` still imposes
the lower bound `0`, so "no lower bound when minScore is absent" fails. -/
theorem range_defaults_counterexample :
    handleGetStories ⟨.absent, .absent, .absent, .absent, []⟩
      [⟨1, [], [], [], -1, 0, []⟩] = [] := by
  decide

/-- Claim C4 (amended): the score range constraint uses inclusive bounds
(`minScore ≤ score ≤ maxScore`); an absent `minScore` defaults to `0` and
an absent `maxScore` defaults to `2147483647`, so with neither parameter
supplied an item passes the score constraint iff `0 ≤ score ≤ 2147483647`
(a negative score is excluded even with no parameters). -/
theorem range_filter_inclusive (story : Story) (m M : Int) :
    (passesQueryFilter (resolveMinScore (.valid m))
        (resolveMaxScore (.valid M)) (resolveTime .absent)
        (resolveTime .absent) story = true ↔
      m ≤ story.Score ∧ story.Score ≤ M) ∧
    resolveMinScore .absent = 0 ∧ resolveMaxScore .absent = 2147483647 ∧
    (passesQueryFilter (resolveMinScore .absent) (resolveMaxScore .absent)
        (resolveTime .absent) (resolveTime .absent) story = true ↔
      0 ≤ story.Score ∧ story.Score ≤ 2147483647) := by
  refine ⟨?_, rfl, rfl, ?_⟩
  · simp [passesQueryFilter, resolveMinScore, resolveMaxScore, resolveTime]
  · simp [passesQueryFilter, resolveMinScore, resolveMaxScore, resolveTime]

/-- Fixture: the item with timestamp 100 and score 5 from the spec's sort
example. -/
def s100 : Story := ⟨1, [], [], [], 5, 100, []⟩

/-- Fixture: the item with timestamp 300 and score 50 from the spec's sort
example. -/
def s300 : Story := ⟨2, [], [], [], 50, 300, []⟩

/-- Fixture: the item with timestamp 200 and score 20 from the spec's sort
example. -/
def s200 : Story := ⟨3, [], [], [], 20, 200, []⟩

/-- Fixture: a `/stories` query with no range parameters and the given
sort value. -/
def qSort (s : GoString) : StoriesQuery := ⟨.absent, .absent, .absent, .absent, s⟩

theorem sort_perm_cases :
    ∀ l ∈ ([s100, s300, s200].permutations'),
      handleGetStories (qSort "oldest".toList) l = [s100, s200, s300] ∧
      handleGetStories (qSort "latest".toList) l = [s300, s200, s100] ∧
      handleGetStories (qSort []) l = [s300, s200, s100] ∧
      handleGetStories (qSort "xyz".toList) l = [s300, s200, s100] ∧
      handleGetStories (qSort "popularity".toList) l = [s300, s200, s100] := by
  decide

/-- Claim C7: whatever order the store snapshot lists the three example
items in, `sort=oldest` yields timestamps [100,200,300]; `sort=latest`,
an absent sort value and an unrecognized one ("xyz") all yield
[300,200,100]; and `sort=popularity` yields scores [50,20,5], i.e. the
items with timestamps [300,200,100]. -/
theorem sort_determinism (l : List Story) (h : l.Perm [s100, s300, s200]) :
    handleGetStories (qSort "oldest".toList) l = [s100, s200, s300] ∧
    handleGetStories (qSort "latest".toList) l = [s300, s200, s100] ∧
    handleGetStories (qSort []) l = [s300, s200, s100] ∧
    handleGetStories (qSort "xyz".toList) l = [s300, s200, s100] ∧
    handleGetStories (qSort "popularity".toList) l = [s300, s200, s100] :=
  sort_perm_cases l (List.mem_permutations'.mpr h)

/-- Claim C7 witness at the snapshot order [s100, s300, s200]. -/
theorem sort_determinism_witness :
    handleGetStories (qSort "oldest".toList) [s100, s300, s200] =
        [s100, s200, s300] ∧
    handleGetStories (qSort "latest".toList) [s100, s300, s200] =
        [s300, s200, s100] ∧
    handleGetStories (qSort []) [s100, s300, s200] = [s300, s200, s100] ∧
    handleGetStories (qSort "xyz".toList) [s100, s300, s200] =
        [s300, s200, s100] ∧
    handleGetStories (qSort "popularity".toList) [s100, s300, s200] =
        [s300, s200, s100] :=
  sort_determinism [s100, s300, s200] (List.Perm.refl _)

/-- Claim C9: a malformed `minScore`, `maxScore`, `since` or `until` value
is ignored — `handleGetStories` behaves exactly as if the parameter were
absent, so the request is answered with the remaining constraints applied,
never rejected. -/
theorem malformed_params_ignored (q : StoriesQuery) (stories : List Story) :
    handleGetStories { q with minScore := .malformed } stories =
      handleGetStories { q with minScore := .absent } stories ∧
    handleGetStories { q with maxScore := .malformed } stories =
      handleGetStories { q with maxScore := .absent } stories ∧
    handleGetStories { q with since := .malformed } stories =
      handleGetStories { q with since := .absent } stories ∧
    handleGetStories { q with until' := .malformed } stories =
      handleGetStories { q with until' := .absent } stories :=
  ⟨rfl, rfl, rfl, rfl⟩

/-- Claim C10: a `since` or `until` value that parses to a Unix timestamp
at or before the epoch (`t ≤ 0`) is treated as if the parameter were
absent, because the filter loop only enforces a time bound when it is
strictly positive. -/
theorem epoch_time_params_ignored (q : StoriesQuery) (stories : List Story)
    (t : Int) (h : t ≤ 0) :
    handleGetStories { q with since := .valid t } stories =
      handleGetStories { q with since := .absent } stories ∧
    handleGetStories { q with until' := .valid t } stories =
      handleGetStories { q with until' := .absent } stories := by
  have hnp : ¬ (t > 0) := not_lt.mpr h
  constructor
  · unfold handleGetStories
    congr 1
    apply List.filter_congr
    intro x hx
    simp [passesQueryFilter, resolveTime, hnp]
  · unfold handleGetStories
    congr 1
    apply List.filter_congr
    intro x hx
    simp [passesQueryFilter, resolveTime, hnp]

/-- Claim C10 witness: `since`/`until` parsing to exactly the epoch
(`t = 0`) leave the result over one concrete story unchanged. -/
theorem epoch_time_params_ignored_witness :
    handleGetStories
        { (⟨.absent, .absent, .absent, .absent, []⟩ : StoriesQuery) with
            since := .valid 0 } [s100] =
      handleGetStories
        { (⟨.absent, .absent, .absent, .absent, []⟩ : StoriesQuery) with
            since := .absent } [s100] ∧
    handleGetStories
        { (⟨.absent, .absent, .absent, .absent, []⟩ : StoriesQuery) with
            until' := .valid 0 } [s100] =
      handleGetStories
        { (⟨.absent, .absent, .absent, .absent, []⟩ : StoriesQuery) with
            until' := .absent } [s100] :=
  epoch_time_params_ignored ⟨.absent, .absent, .absent, .absent, []⟩ [s100] 0
    (by decide)
